import Mathlib

/-!
Shallow embedding of `torch/csrc/api/src/nn/modules/rnn.cpp` (the C++ frontend
RNN / LSTM / GRU modules of the torch framework).

The file under verification is a configuration / validation / dispatch layer:
it checks shapes, lays out per-layer per-direction weight parameters, decides
whether the cuDNN weight-flattening fast path may be taken, and dispatches to
the fused recurrent kernels (`rnn_tanh`, `rnn_relu`, `lstm`, `gru`).  Those
kernels, tensor allocation and the autograd machinery are external
collaborators; here they are modelled abstractly:

* a tensor is modelled by the attributes this layer inspects — its shape
  (`sizes`), dtype code, device (a CUDA flag and a device id), whether cuDNN
  accepts it, its data pointer, and (for the one-dimensional integer tensors
  such as `batch_sizes` and permutation indices) its entries `vals`;
* the fused kernels are a parameter (`kern`) of the forward functions; the
  embedding records, in a `KernelInvocation`, which kernel was selected,
  whether the packed-sequence overload (with `batch_sizes`) was used, and the
  exact arguments passed, so dispatch claims are statements about that record;
* `TORCH_CHECK` failures become `Except.error`; `TORCH_WARN` becomes a
  recorded boolean (`warned`), since warnings do not interrupt control flow.

The C++ source as checked in contains a handful of transcription slips that
make it non-compilable verbatim (ternaries missing `?` such as
`options.bidirectional() 2 : 1`, a dropped `return` at the end of
`RNNImplBase::forward_helper`, a missing `;` after a `TORCH_CHECK`).  The
embedding follows the unambiguous intent of those lines (they are standard
upstream code).
-/

namespace RnnCpp

/-- The mode variant `detail::RNNOptionsBase::rnn_options_base_mode_t`:
a variant over exactly the four enum types `kLSTM`, `kGRU`, `kRNN_TANH`,
`kRNN_RELU`. -/
inductive RNNMode where
  | RNN_TANH
  | RNN_RELU
  | LSTM
  | GRU
deriving Repr

/-- The dtype of a tensor, abstracted to a code (this layer only ever compares
dtypes for equality). -/
abbrev DType := Nat

/-- A defined (non-null) tensor, reduced to the attributes the RNN frontend
layer inspects.  `vals` models the integer entries of the one-dimensional
tensors this layer reads element-wise (`batch_sizes`, permutation indices);
for higher-dimensional tensors the numeric contents are out of scope. -/
structure TensorVal where
  sizes : List Int
  dtype : DType := 0
  isCuda : Bool := false
  /-- Result of the external predicate `torch::cudnn_is_acceptable` on this
  tensor. -/
  cudnnOk : Bool := false
  dataPtr : Nat := 0
  deviceId : Nat := 0
  vals : List Int := []

instance : Inhabited TensorVal := ⟨{ sizes := [] }⟩

/-- An `at::Tensor` handle: either undefined (default-constructed `Tensor()`)
or a defined tensor. -/
inductive Tensor where
  | null : Tensor
  | val : TensorVal → Tensor

instance : Inhabited Tensor := ⟨.null⟩

namespace Tensor

/-- `Tensor::defined()`. -/
def defined : Tensor → Bool
  | .null => false
  | .val _ => true

/-- `Tensor::dim()` (number of dimensions); only ever applied to defined
tensors in the modelled code paths. -/
def dim : Tensor → Int
  | .null => 0
  | .val v => (v.sizes.length : Int)

/-- `Tensor::dtype()`; the undefined case is a sentinel that never decides a
branch (an undefined tensor already fails the `is_cuda` test wherever dtype is
compared). -/
def dtype : Tensor → DType
  | .null => 0
  | .val v => v.dtype

/-- `Tensor::is_cuda()`; false on an undefined tensor. -/
def isCuda : Tensor → Bool
  | .null => false
  | .val v => v.isCuda

/-- The external `torch::cudnn_is_acceptable`; an undefined tensor is never
acceptable. -/
def cudnnAcceptable : Tensor → Bool
  | .null => false
  | .val v => v.cudnnOk

/-- `Tensor::data_ptr()`; sentinel 0 on an undefined tensor (never reached in
the modelled paths: the `is_cuda` test rejects undefined tensors first). -/
def dataPtr : Tensor → Nat
  | .null => 0
  | .val v => v.dataPtr

end Tensor

namespace TensorVal

/-- `Tensor::size(i)` with Python-style negative indexing: `size(-1)` is the
last dimension. -/
def size (t : TensorVal) (i : Int) : Int :=
  let idx : Int := if i < 0 then (t.sizes.length : Int) + i else i
  t.sizes.getD idx.toNat 0

/-- `Tensor::dim()`. -/
def dim (t : TensorVal) : Int := (t.sizes.length : Int)

/-- `t[0].item<int64_t>()` for a one-dimensional integer tensor. -/
def item0 (t : TensorVal) : Int := t.vals.headD 0

/-- `Tensor::index_select(dim, index)`: the shape has `sizes[dim]` replaced by
the number of indices; data movement is modelled only along dimension 0 (the
only dimension whose entries this layer ever reads back). -/
def indexSelect (t : TensorVal) (d : Int) (idx : TensorVal) : TensorVal :=
  { t with
    sizes := t.sizes.set d.toNat (idx.sizes.headD 0)
    vals := if d = 0 then idx.vals.map (fun i => t.vals.getD i.toNat 0) else t.vals }

end TensorVal

/-- `Tensor::index_select` lifted to handles. -/
def Tensor.indexSelect (t : Tensor) (d : Int) (idx : Tensor) : Tensor :=
  match t, idx with
  | .val v, .val i => .val (v.indexSelect d i)
  | _, _ => .null

/-- `torch::zeros(sizes, torch::dtype(src.dtype()).device(src.device()))`:
a fresh zero tensor with the given shape and the dtype and device of `src`. -/
def mkZeros (sizes : List Int) (src : TensorVal) : TensorVal :=
  { sizes := sizes
    dtype := src.dtype
    isCuda := src.isCuda
    deviceId := src.deviceId }

/-- `torch::empty(sizes)`: a fresh CPU tensor with the given shape (default
tensor options; contents uninitialized and out of scope). -/
def mkEmpty (sizes : List Int) : TensorVal := { sizes := sizes }

/-- `detail::RNNOptionsBase`: mode, input/hidden sizes and the common options.
`dropout` is a C++ `double`; it is modelled as a rational, which is exact for
the order comparisons against `0` and `1` this layer performs. -/
structure RNNOptionsBase where
  mode : RNNMode
  input_size : Int
  hidden_size : Int
  num_layers : Int := 1
  bias : Bool := true
  batch_first : Bool := false
  dropout : Rat := 0
  bidirectional : Bool := false

/-- `options.bidirectional() ? 2 : 1`, computed throughout the file. -/
def RNNOptionsBase.numDirections (o : RNNOptionsBase) : Int :=
  if o.bidirectional then 2 else 1

/-- The CUDNN mode codes (`enum class CuDNNMode`). -/
inductive CuDNNMode where
  | RNN_RELU
  | RNN_TANH
  | LSTM
  | GRU

/-- The numeric value of each `CuDNNMode` enumerator. -/
def CuDNNMode.code : CuDNNMode → Nat
  | .RNN_RELU => 0
  | .RNN_TANH => 1
  | .LSTM => 2
  | .GRU => 3

/-- `get_cudnn_mode_for_rnn`: maps the options mode to the CUDNN mode code.
The C++ `else TORCH_CHECK(false, ...)` branch is unreachable because the mode
variant has exactly these four alternatives. -/
def get_cudnn_mode_for_rnn : RNNMode → CuDNNMode
  | .RNN_RELU => .RNN_RELU
  | .RNN_TANH => .RNN_TANH
  | .LSTM => .LSTM
  | .GRU => .GRU

/-- The two simple-RNN kernels stored in `_rnn_impls`. -/
inductive RNNImplKind where
  | rnn_tanh
  | rnn_relu

/-- `get_rnn_impl`: looks up the fused simple-RNN kernel for the mode;
`TORCH_CHECK(false, "Unknown mode: ...")` for every other mode (which here
includes `kLSTM` and `kGRU`). -/
def get_rnn_impl : RNNMode → Except String RNNImplKind
  | .RNN_TANH => .ok .rnn_tanh
  | .RNN_RELU => .ok .rnn_relu
  | m => .error ("Unknown mode: " ++ reprStr m)

/-- `apply_permutation(tensor, permutation, dim = 1)`. -/
def apply_permutation (tensor : Tensor) (permutation : Tensor) (d : Int := 1) : Tensor :=
  tensor.indexSelect d permutation

/-- Extract the payload of a handle (sentinel on undefined; only applied where
the C++ dereferences a tensor that is defined on every reachable path). -/
def Tensor.toVal : Tensor → TensorVal
  | .null => default
  | .val v => v

namespace RNNImplBase

/-- The per-direction name suffix: `direction == 1 ? "_reverse" : ""`. -/
def suffixFor (direction : Nat) : String :=
  if direction = 1 then "_reverse" else ""

/-- The parameter names registered for one (layer, direction): the result of
substituting the layer number and suffix into the templates
`weight_ih_l{layer}{suffix}`, `weight_hh_l{layer}{suffix}` and, when
`options.bias()`, also `bias_ih_l{layer}{suffix}`, `bias_hh_l{layer}{suffix}`
(the `std::regex_replace` calls on these fixed templates amount to this
concatenation). -/
def paramNamesFor (bias : Bool) (layer direction : Nat) : List String :=
  let sfx := suffixFor direction
  ["weight_ih_l" ++ toString layer ++ sfx, "weight_hh_l" ++ toString layer ++ sfx] ++
    (if bias then
      ["bias_ih_l" ++ toString layer ++ sfx, "bias_hh_l" ++ toString layer ++ sfx]
    else [])

/-- The `layer_params` vector `{w_ih, w_hh, b_ih, b_hh}` built for one
(layer, direction): always four tensors, of which only the first
`param_names.size()` get registered. -/
def layerParamsFor (o : RNNOptionsBase) (gate_size : Int) (layer : Nat) : List TensorVal :=
  let layer_input_size : Int :=
    if layer = 0 then o.input_size else o.hidden_size * o.numDirections
  [mkEmpty [gate_size, layer_input_size], mkEmpty [gate_size, o.hidden_size],
   mkEmpty [gate_size], mkEmpty [gate_size]]

/-- The (name, tensor) pairs registered for one (layer, direction): the loop
`for i < param_names.size(): register_parameter(param_names[i], layer_params[i])`. -/
def registeredEntries (o : RNNOptionsBase) (gate_size : Int) (layer direction : Nat) :
    List (String × TensorVal) :=
  (paramNamesFor o.bias layer direction).zip (layerParamsFor o gate_size layer)

/-- `gate_size` as computed by `reset()` from the mode.  The final
`else TORCH_CHECK(false, "Unrecognized RNN mode...")` branch is unreachable:
the mode variant has exactly these four alternatives. -/
def gateSize (mode : RNNMode) (hidden_size : Int) : Int :=
  match mode with
  | .LSTM => 4 * hidden_size
  | .GRU => 3 * hidden_size
  | .RNN_TANH => hidden_size
  | .RNN_RELU => hidden_size

/-- The module state produced by `reset()`: the registered parameters (in
registration order), `_flat_weights_names`, `_all_weights`, `_flat_weights`,
and whether the dropout/num_layers `TORCH_WARN` fired.  The trailing
`flatten_parameters()` call is a no-op on the freshly created CPU tensors and
`reset_parameters()` only fills in values (out of scope), so neither changes
any modelled attribute. -/
structure ResetResult where
  params : List (String × TensorVal)
  flat_weights_names : List String
  all_weights : List (List String)
  flat_weights : List Tensor
  warned : Bool

instance : Inhabited ResetResult := ⟨⟨[], [], [], [], false⟩⟩

/-- The (layer, direction) iteration order of the two nested loops in
`reset()`. -/
def layerDirs (o : RNNOptionsBase) : List (Nat × Nat) :=
  (List.range o.num_layers.toNat).flatMap fun layer =>
    (List.range o.numDirections.toNat).map fun direction => (layer, direction)

/-- `RNNImplBase::reset()`. -/
def reset (o : RNNOptionsBase) : Except String ResetResult :=
  if 0 ≤ o.dropout ∧ o.dropout ≤ 1 then
    let warned := decide (0 < o.dropout) && decide (o.num_layers = 1)
    let gate_size := gateSize o.mode o.hidden_size
    let params := (layerDirs o).flatMap fun ld => registeredEntries o gate_size ld.1 ld.2
    let flat_names := (layerDirs o).flatMap fun ld => paramNamesFor o.bias ld.1 ld.2
    let all_w := (layerDirs o).map fun ld => paramNamesFor o.bias ld.1 ld.2
    let flat_w := flat_names.map fun wn =>
      match params.lookup wn with
      | some t => Tensor.val t
      | none => Tensor.null
    .ok { params := params, flat_weights_names := flat_names, all_weights := all_w,
          flat_weights := flat_w, warned := warned }
  else
    .error "dropout should be a number in range [0, 1] representing the probability of an element being zeroed"

/-- The arguments of a `torch::_cudnn_rnn_flatten_weight` call. -/
structure CudnnFlattenCall where
  weights : List Tensor
  weight_stride0 : Int
  input_size : Int
  mode : CuDNNMode
  hidden_size : Int
  num_layers : Int
  batch_first : Bool
  bidirectional : Bool

/-- `RNNImplBase::flatten_parameters()`: returns the
`_cudnn_rnn_flatten_weight` invocation it performs, or `none` when it
short-circuits (in which case nothing is mutated).  Indexing `_flat_weights[0]`
on an empty vector is undefined behaviour in the C++; the model treats the
empty case as the no-op. -/
def flatten_parameters (o : RNNOptionsBase) (flat_weights : List Tensor)
    (flat_weights_names : List String) : Option CudnnFlattenCall :=
  if flat_weights.length ≠ flat_weights_names.length then none
  else
    match flat_weights with
    | [] => none
    | first_fw :: _ =>
      let dt := first_fw.dtype
      if flat_weights.all fun fw => fw.dtype == dt && fw.isCuda && fw.cudnnAcceptable then
        if (flat_weights.map Tensor.dataPtr).dedup.length = flat_weights.length then
          some { weights := flat_weights
                 weight_stride0 := if o.bias then 4 else 2
                 input_size := o.input_size
                 mode := get_cudnn_mode_for_rnn o.mode
                 hidden_size := o.hidden_size
                 num_layers := o.num_layers
                 batch_first := o.batch_first
                 bidirectional := o.bidirectional }
        else none
      else none

/-- `RNNImplBase::check_input(input, batch_sizes)`. -/
def check_input (o : RNNOptionsBase) (input : TensorVal) (batch_sizes : Tensor) :
    Except String Unit :=
  let expected_input_dim : Int := if batch_sizes.defined then 2 else 3
  if input.dim = expected_input_dim then
    if o.input_size = input.size (-1) then
      .ok ()
    else
      .error ("input.size(-1) must be equal to input_size. Expected " ++
        toString o.input_size ++ " got " ++ toString (input.size (-1)))
  else
    .error ("input must have " ++ toString expected_input_dim ++
      " dimensions, got " ++ toString input.dim)

/-- `RNNImplBase::get_expected_hidden_size(input, batch_sizes)`. -/
def get_expected_hidden_size (o : RNNOptionsBase) (input : TensorVal)
    (batch_sizes : Tensor) : Int × Int × Int :=
  let mini_batch : Int :=
    match batch_sizes with
    | .val bs => bs.item0
    | .null => if o.batch_first then input.size 0 else input.size 1
  (o.num_layers * o.numDirections, mini_batch, o.hidden_size)

/-- `RNNImplBase::check_hidden_size(hx, expected_hidden_size, msg)`: errors
exactly when `hx`'s sizes differ from the expected triple, with `{1}`/`{2}`
substituted into the message. -/
def check_hidden_size (hx : TensorVal) (expected : Int × Int × Int)
    (msg : String := "Expected hidden size {1}, got {2}") : Except String Unit :=
  if hx.sizes = [expected.1, expected.2.1, expected.2.2] then .ok ()
  else
    .error (((msg.replace "{1}" (reprStr expected)).replace "{2}" (reprStr hx.sizes)))

/-- `RNNImplBase::check_forward_args(input, hidden, batch_sizes)`. -/
def check_forward_args (o : RNNOptionsBase) (input : TensorVal) (hidden : TensorVal)
    (batch_sizes : Tensor) : Except String Unit :=
  match check_input o input batch_sizes with
  | .error e => .error e
  | .ok _ =>
    check_hidden_size hidden (get_expected_hidden_size o input batch_sizes)

/-- `RNNImplBase::permute_hidden(hx, permutation)`. -/
def permute_hidden (hx : Tensor) (permutation : Tensor) : Tensor :=
  if ¬ permutation.defined then hx
  else apply_permutation hx permutation

end RNNImplBase

/-- The fused recurrent kernels this layer dispatches to. -/
inductive Kernel where
  | rnn_tanh
  | rnn_relu
  | lstm
  | gru

/-- A record of one call into the fused kernel library: which kernel, whether
the packed-sequence overload (the one taking `batch_sizes`) was used, and the
arguments passed.  `hx` is `[h]` for RNN/GRU and `[h, c]` for LSTM;
`batch_first` is passed only by the unpacked overload. -/
structure KernelInvocation where
  kernel : Kernel
  packed : Bool
  input : TensorVal
  batch_sizes : Tensor
  hx : List Tensor
  params : List Tensor
  has_biases : Bool
  num_layers : Int
  dropout : Rat
  train : Bool
  bidirectional : Bool
  batch_first : Option Bool

/-- The argument record passed into a fused-kernel call.  The two branches are
the two C++ call forms: without defined `batch_sizes` the unpacked overload
(which receives `batch_first`), with defined `batch_sizes` the
packed-sequence overload (which receives `batch_sizes` and no
`batch_first`). -/
def mkInvocation (k : Kernel) (o : RNNOptionsBase) (params : List Tensor)
    (train : Bool) (input : TensorVal) (batch_sizes : Tensor) (hx : List Tensor) :
    KernelInvocation :=
  if ¬ batch_sizes.defined then
    { kernel := k, packed := false, input := input, batch_sizes := batch_sizes,
      hx := hx, params := params, has_biases := o.bias,
      num_layers := o.num_layers, dropout := o.dropout, train := train,
      bidirectional := o.bidirectional, batch_first := some o.batch_first }
  else
    { kernel := k, packed := true, input := input, batch_sizes := batch_sizes,
      hx := hx, params := params, has_biases := o.bias,
      num_layers := o.num_layers, dropout := o.dropout, train := train,
      bidirectional := o.bidirectional, batch_first := none }

namespace RNNImplBase

/-- `RNNImplBase::forward_helper(input, batch_sizes, sorted_indices,
max_batch_size, hx)`.  The fused kernel itself is external and is supplied as
`kern`, mapping the recorded invocation to its `(output, hidden)` result;
the helper returns that result together with the invocation it performed.
(The transcribed C++ drops the final `return std::make_tuple(output, hidden);`
of the upstream code; the embedding follows the evident intent.) -/
def forward_helper (o : RNNOptionsBase) (flat_weights : List Tensor) (train : Bool)
    (kern : KernelInvocation → TensorVal × TensorVal)
    (input : TensorVal) (batch_sizes sorted_indices : Tensor) (max_batch_size : Int)
    (hx0 : Tensor) : Except String (TensorVal × TensorVal × KernelInvocation) :=
  let hx : Tensor :=
    if ¬ hx0.defined then
      .val (mkZeros [o.num_layers * o.numDirections, max_batch_size, o.hidden_size] input)
    else
      permute_hidden hx0 sorted_indices
  match check_forward_args o input hx.toVal batch_sizes with
  | .error e => .error e
  | .ok _ =>
    match get_rnn_impl o.mode with
    | .error e => .error e
    | .ok impl =>
      let k : Kernel := match impl with | .rnn_tanh => .rnn_tanh | .rnn_relu => .rnn_relu
      let inv := mkInvocation k o flat_weights train input batch_sizes [hx]
      let result := kern inv
      .ok (result.1, result.2, inv)

/-- `RNNImplBase::forward(const Tensor&, Tensor hx = {})` (the unpacked
overload). -/
def forward (o : RNNOptionsBase) (flat_weights : List Tensor) (train : Bool)
    (kern : KernelInvocation → TensorVal × TensorVal)
    (input : TensorVal) (hx : Tensor) :
    Except String (TensorVal × Tensor × KernelInvocation) :=
  let batch_sizes := Tensor.null
  let max_batch_size : Int := if o.batch_first then input.size 0 else input.size 1
  let sorted_indices := Tensor.null
  let unsorted_indices := Tensor.null
  match forward_helper o flat_weights train kern input batch_sizes sorted_indices
      max_batch_size hx with
  | .error e => .error e
  | .ok (output, hidden, inv) =>
    .ok (output, permute_hidden (.val hidden) unsorted_indices, inv)

end RNNImplBase

/-- `torch::nn::utils::rnn::PackedSequence`, reduced to the four components
this layer reads (its `batch_sizes` is always a defined tensor). -/
structure PackedSequence where
  data : TensorVal
  batch_sizes : TensorVal
  sorted_indices : Tensor
  unsorted_indices : Tensor

namespace RNNImplBase

/-- `RNNImplBase::forward(const PackedSequence&, Tensor hx = {})` (the packed
overload). -/
def forwardPacked (o : RNNOptionsBase) (flat_weights : List Tensor) (train : Bool)
    (kern : KernelInvocation → TensorVal × TensorVal)
    (packed_input : PackedSequence) (hx : Tensor) :
    Except String (PackedSequence × Tensor × KernelInvocation) :=
  let input := packed_input.data
  let batch_sizes := Tensor.val packed_input.batch_sizes
  let sorted_indices := packed_input.sorted_indices
  let unsorted_indices := packed_input.unsorted_indices
  let max_batch_size := packed_input.batch_sizes.item0
  match forward_helper o flat_weights train kern input batch_sizes sorted_indices
      max_batch_size hx with
  | .error e => .error e
  | .ok (output, hidden, inv) =>
    let output_packed : PackedSequence :=
      ⟨output, packed_input.batch_sizes, sorted_indices, unsorted_indices⟩
    .ok (output_packed, permute_hidden (.val hidden) unsorted_indices, inv)

end RNNImplBase

namespace LSTMImpl

/-- `LSTMImpl::check_forward_args(input, hidden, batch_sizes)`. -/
def check_forward_args (o : RNNOptionsBase) (input : TensorVal)
    (hidden : TensorVal × TensorVal) (batch_sizes : Tensor) : Except String Unit :=
  match RNNImplBase.check_input o input batch_sizes with
  | .error e => .error e
  | .ok _ =>
    let expected_hidden_size := RNNImplBase.get_expected_hidden_size o input batch_sizes
    match RNNImplBase.check_hidden_size hidden.1 expected_hidden_size
        "Expected hidden[0] size {1}, got {2}" with
    | .error e => .error e
    | .ok _ =>
      RNNImplBase.check_hidden_size hidden.2 expected_hidden_size
        "Expected hidden[1] size {1}, got {2}"

/-- `LSTMImpl::permute_hidden(hx, permutation)`: applies `apply_permutation`
to both components, or returns the tuple unchanged when the permutation is
undefined. -/
def permute_hidden (hx : TensorVal × TensorVal) (permutation : Tensor) :
    TensorVal × TensorVal :=
  match permutation with
  | .null => hx
  | .val p => (hx.1.indexSelect 1 p, hx.2.indexSelect 1 p)

/-- `LSTMImpl::forward_helper(input, batch_sizes, sorted_indices,
max_batch_size, hx_opt)`; `kern` is the external `torch::lstm` kernel mapping
the invocation to its `(output, h, c)` result. -/
def forward_helper (o : RNNOptionsBase) (flat_weights : List Tensor) (train : Bool)
    (kern : KernelInvocation → TensorVal × TensorVal × TensorVal)
    (input : TensorVal) (batch_sizes sorted_indices : Tensor) (max_batch_size : Int)
    (hx_opt : Option (TensorVal × TensorVal)) :
    Except String (TensorVal × (TensorVal × TensorVal) × KernelInvocation) :=
  let hx : TensorVal × TensorVal :=
    match hx_opt with
    | none =>
      let zeros := mkZeros [o.num_layers * o.numDirections, max_batch_size, o.hidden_size] input
      (zeros, zeros)
    | some hxv =>
      permute_hidden hxv sorted_indices
  match check_forward_args o input hx batch_sizes with
  | .error e => .error e
  | .ok _ =>
    let inv := mkInvocation .lstm o flat_weights train input batch_sizes
      [.val hx.1, .val hx.2]
    let result := kern inv
    .ok (result.1, (result.2.1, result.2.2), inv)

/-- `LSTMImpl::forward(const Tensor&, torch::optional<std::tuple<Tensor,
Tensor>> hx_opt)` (the unpacked overload). -/
def forward (o : RNNOptionsBase) (flat_weights : List Tensor) (train : Bool)
    (kern : KernelInvocation → TensorVal × TensorVal × TensorVal)
    (input : TensorVal) (hx_opt : Option (TensorVal × TensorVal)) :
    Except String (TensorVal × (TensorVal × TensorVal) × KernelInvocation) :=
  let batch_sizes := Tensor.null
  let max_batch_size : Int := if o.batch_first then input.size 0 else input.size 1
  let sorted_indices := Tensor.null
  let unsorted_indices := Tensor.null
  match forward_helper o flat_weights train kern input batch_sizes sorted_indices
      max_batch_size hx_opt with
  | .error e => .error e
  | .ok (output, hidden, inv) =>
    .ok (output, permute_hidden hidden unsorted_indices, inv)

/-- `LSTMImpl::forward(const PackedSequence&, ...)` (the packed overload). -/
def forwardPacked (o : RNNOptionsBase) (flat_weights : List Tensor) (train : Bool)
    (kern : KernelInvocation → TensorVal × TensorVal × TensorVal)
    (packed_input : PackedSequence) (hx_opt : Option (TensorVal × TensorVal)) :
    Except String (PackedSequence × (TensorVal × TensorVal) × KernelInvocation) :=
  let input := packed_input.data
  let batch_sizes := Tensor.val packed_input.batch_sizes
  let sorted_indices := packed_input.sorted_indices
  let unsorted_indices := packed_input.unsorted_indices
  let max_batch_size := packed_input.batch_sizes.item0
  match forward_helper o flat_weights train kern input batch_sizes sorted_indices
      max_batch_size hx_opt with
  | .error e => .error e
  | .ok (output, hidden, inv) =>
    let output_packed : PackedSequence :=
      ⟨output, packed_input.batch_sizes, sorted_indices, unsorted_indices⟩
    .ok (output_packed, permute_hidden hidden unsorted_indices, inv)

end LSTMImpl

namespace GRUImpl

/-- `GRUImpl::forward_helper(input, batch_sizes, sorted_indices,
max_batch_size, hx)`; `kern` is the external `torch::gru` kernel. -/
def forward_helper (o : RNNOptionsBase) (flat_weights : List Tensor) (train : Bool)
    (kern : KernelInvocation → TensorVal × TensorVal)
    (input : TensorVal) (batch_sizes sorted_indices : Tensor) (max_batch_size : Int)
    (hx0 : Tensor) : Except String (TensorVal × TensorVal × KernelInvocation) :=
  let hx : Tensor :=
    if ¬ hx0.defined then
      .val (mkZeros [o.num_layers * o.numDirections, max_batch_size, o.hidden_size] input)
    else
      RNNImplBase.permute_hidden hx0 sorted_indices
  match RNNImplBase.check_forward_args o input hx.toVal batch_sizes with
  | .error e => .error e
  | .ok _ =>
    let inv := mkInvocation .gru o flat_weights train input batch_sizes [hx]
    let result := kern inv
    .ok (result.1, result.2, inv)

/-- `GRUImpl::forward(const Tensor&, Tensor hx)` (the unpacked overload). -/
def forward (o : RNNOptionsBase) (flat_weights : List Tensor) (train : Bool)
    (kern : KernelInvocation → TensorVal × TensorVal)
    (input : TensorVal) (hx : Tensor) :
    Except String (TensorVal × Tensor × KernelInvocation) :=
  let batch_sizes := Tensor.null
  let max_batch_size : Int := if o.batch_first then input.size 0 else input.size 1
  let sorted_indices := Tensor.null
  let unsorted_indices := Tensor.null
  match forward_helper o flat_weights train kern input batch_sizes sorted_indices
      max_batch_size hx with
  | .error e => .error e
  | .ok (output, hidden, inv) =>
    .ok (output, RNNImplBase.permute_hidden (.val hidden) unsorted_indices, inv)

/-- `forward(const PackedSequence&, Tensor hx)` (the packed GRU overload). -/
def forwardPacked (o : RNNOptionsBase) (flat_weights : List Tensor) (train : Bool)
    (kern : KernelInvocation → TensorVal × TensorVal)
    (packed_input : PackedSequence) (hx : Tensor) :
    Except String (PackedSequence × Tensor × KernelInvocation) :=
  let input := packed_input.data
  let batch_sizes := Tensor.val packed_input.batch_sizes
  let sorted_indices := packed_input.sorted_indices
  let unsorted_indices := packed_input.unsorted_indices
  let max_batch_size := packed_input.batch_sizes.item0
  match forward_helper o flat_weights train kern input batch_sizes sorted_indices
      max_batch_size hx with
  | .error e => .error e
  | .ok (output, hidden, inv) =>
    let output_packed : PackedSequence :=
      ⟨output, packed_input.batch_sizes, sorted_indices, unsorted_indices⟩
    .ok (output_packed, RNNImplBase.permute_hidden (.val hidden) unsorted_indices, inv)

end GRUImpl

/-! ### Shared lemmas -/

theorem mkInvocation_kernel (k : Kernel) (o : RNNOptionsBase) (p : List Tensor)
    (t : Bool) (i : TensorVal) (bs : Tensor) (hx : List Tensor) :
    (mkInvocation k o p t i bs hx).kernel = k := by
  unfold mkInvocation
  split <;> rfl

theorem mkInvocation_packed (k : Kernel) (o : RNNOptionsBase) (p : List Tensor)
    (t : Bool) (i : TensorVal) (bs : Tensor) (hx : List Tensor) :
    (mkInvocation k o p t i bs hx).packed = bs.defined := by
  cases bs <;> simp [mkInvocation, Tensor.defined]

theorem mkInvocation_hx (k : Kernel) (o : RNNOptionsBase) (p : List Tensor)
    (t : Bool) (i : TensorVal) (bs : Tensor) (hx : List Tensor) :
    (mkInvocation k o p t i bs hx).hx = hx := by
  unfold mkInvocation
  split <;> rfl

theorem dedup_length_eq_iff {α : Type} [DecidableEq α] (l : List α) :
    l.dedup.length = l.length ↔ l.Nodup := by
  constructor
  · intro h
    have hs : l.dedup = l := (List.dedup_sublist l).eq_of_length h
    rw [← hs]
    exact l.nodup_dedup
  · intro h
    rw [h.dedup]

/-- The initial hidden state actually used by `RNNImplBase::forward_helper`
and `GRUImpl::forward_helper`: fresh zeros when none was supplied, otherwise
the supplied state permuted by `sorted_indices`. -/
def hiddenUsed (o : RNNOptionsBase) (input : TensorVal) (sorted_indices : Tensor)
    (max_batch_size : Int) (hx0 : Tensor) : Tensor :=
  if ¬ hx0.defined then
    .val (mkZeros [o.num_layers * o.numDirections, max_batch_size, o.hidden_size] input)
  else
    RNNImplBase.permute_hidden hx0 sorted_indices

/-- The initial (h, c) actually used by `LSTMImpl::forward_helper`. -/
def hiddenUsedLSTM (o : RNNOptionsBase) (input : TensorVal) (sorted_indices : Tensor)
    (max_batch_size : Int) (hx_opt : Option (TensorVal × TensorVal)) :
    TensorVal × TensorVal :=
  match hx_opt with
  | none =>
    let zeros := mkZeros [o.num_layers * o.numDirections, max_batch_size, o.hidden_size] input
    (zeros, zeros)
  | some hxv => LSTMImpl.permute_hidden hxv sorted_indices

theorem RNNImplBase.rnn_forward_helper_ok (o : RNNOptionsBase) (fw : List Tensor)
    (train : Bool) (kern : KernelInvocation → TensorVal × TensorVal)
    (input : TensorVal) (bs si : Tensor) (mbs : Int) (hx0 : Tensor)
    (out hid : TensorVal) (inv : KernelInvocation)
    (h : RNNImplBase.forward_helper o fw train kern input bs si mbs hx0 =
      .ok (out, hid, inv)) :
    ∃ impl, get_rnn_impl o.mode = .ok impl ∧
      inv = mkInvocation
        (match impl with | .rnn_tanh => Kernel.rnn_tanh | .rnn_relu => Kernel.rnn_relu)
        o fw train input bs [hiddenUsed o input si mbs hx0] ∧
      out = (kern inv).1 ∧ hid = (kern inv).2 := by
  simp only [RNNImplBase.forward_helper] at h
  split at h
  · simp at h
  · split at h
    · simp at h
    · rename_i impl heq
      simp only [Except.ok.injEq, Prod.mk.injEq] at h
      obtain ⟨h1, h2, h3⟩ := h
      subst h3
      exact ⟨impl, heq, rfl, h1.symm, h2.symm⟩

theorem LSTMImpl.lstm_forward_helper_ok (o : RNNOptionsBase) (fw : List Tensor)
    (train : Bool) (kern : KernelInvocation → TensorVal × TensorVal × TensorVal)
    (input : TensorVal) (bs si : Tensor) (mbs : Int)
    (hx_opt : Option (TensorVal × TensorVal))
    (out : TensorVal) (hid : TensorVal × TensorVal) (inv : KernelInvocation)
    (h : LSTMImpl.forward_helper o fw train kern input bs si mbs hx_opt =
      .ok (out, hid, inv)) :
    inv = mkInvocation .lstm o fw train input bs
        [.val (hiddenUsedLSTM o input si mbs hx_opt).1,
         .val (hiddenUsedLSTM o input si mbs hx_opt).2] ∧
      out = (kern inv).1 ∧ hid = ((kern inv).2.1, (kern inv).2.2) := by
  simp only [LSTMImpl.forward_helper] at h
  split at h
  · simp at h
  · simp only [Except.ok.injEq, Prod.mk.injEq] at h
    obtain ⟨h1, h2, h3⟩ := h
    subst h3
    refine ⟨?_, h1.symm, h2.symm⟩
    cases hx_opt <;> rfl

theorem GRUImpl.gru_forward_helper_ok (o : RNNOptionsBase) (fw : List Tensor)
    (train : Bool) (kern : KernelInvocation → TensorVal × TensorVal)
    (input : TensorVal) (bs si : Tensor) (mbs : Int) (hx0 : Tensor)
    (out hid : TensorVal) (inv : KernelInvocation)
    (h : GRUImpl.forward_helper o fw train kern input bs si mbs hx0 =
      .ok (out, hid, inv)) :
    inv = mkInvocation .gru o fw train input bs [hiddenUsed o input si mbs hx0] ∧
      out = (kern inv).1 ∧ hid = (kern inv).2 := by
  simp only [GRUImpl.forward_helper] at h
  split at h
  · simp at h
  · simp only [Except.ok.injEq, Prod.mk.injEq] at h
    obtain ⟨h1, h2, h3⟩ := h
    subst h3
    exact ⟨rfl, h1.symm, h2.symm⟩

/-! ### Claim theorems -/

/-- C1: the forward path dispatches to the fused kernel matching the
configured mode: `RNNImplBase::forward_helper` selects `rnn_tanh` for
`kRNN_TANH` and `rnn_relu` for `kRNN_RELU` through `get_rnn_impl`, which
errors for every other mode (here `kLSTM` and `kGRU`);
`LSTMImpl::forward_helper` calls `torch::lstm` and `GRUImpl::forward_helper`
calls `torch::gru`; and in each helper the packed-sequence overload is used
exactly when `batch_sizes` is a defined tensor. -/
theorem forward_dispatch_spec :
    (get_rnn_impl .RNN_TANH = .ok .rnn_tanh) ∧
    (get_rnn_impl .RNN_RELU = .ok .rnn_relu) ∧
    (∀ m : RNNMode, m = .LSTM ∨ m = .GRU → ∃ e, get_rnn_impl m = .error e) ∧
    (∀ o fw train kern input bs si mbs hx0 out hid inv,
      RNNImplBase.forward_helper o fw train kern input bs si mbs hx0 =
          .ok (out, hid, inv) →
        ((o.mode = .RNN_TANH ∧ inv.kernel = .rnn_tanh) ∨
         (o.mode = .RNN_RELU ∧ inv.kernel = .rnn_relu)) ∧
        inv.packed = bs.defined) ∧
    (∀ o fw train kern input bs si mbs hx_opt out hid inv,
      LSTMImpl.forward_helper o fw train kern input bs si mbs hx_opt =
          .ok (out, hid, inv) →
        inv.kernel = .lstm ∧ inv.packed = bs.defined) ∧
    (∀ o fw train kern input bs si mbs hx0 out hid inv,
      GRUImpl.forward_helper o fw train kern input bs si mbs hx0 =
          .ok (out, hid, inv) →
        inv.kernel = .gru ∧ inv.packed = bs.defined) := by
  refine ⟨rfl, rfl, ?_, ?_, ?_, ?_⟩
  · rintro m (rfl | rfl) <;> exact ⟨_, rfl⟩
  · intro o fw train kern input bs si mbs hx0 out hid inv h
    obtain ⟨impl, himpl, hinv, -, -⟩ :=
      RNNImplBase.rnn_forward_helper_ok o fw train kern input bs si mbs hx0 out hid inv h
    subst hinv
    refine ⟨?_, mkInvocation_packed ..⟩
    cases hm : o.mode <;> rw [hm] at himpl <;> simp [get_rnn_impl] at himpl
    · subst himpl
      exact Or.inl ⟨rfl, mkInvocation_kernel ..⟩
    · subst himpl
      exact Or.inr ⟨rfl, mkInvocation_kernel ..⟩
  · intro o fw train kern input bs si mbs hx_opt out hid inv h
    obtain ⟨hinv, -, -⟩ :=
      LSTMImpl.lstm_forward_helper_ok o fw train kern input bs si mbs hx_opt out hid inv h
    subst hinv
    exact ⟨mkInvocation_kernel .., mkInvocation_packed ..⟩
  · intro o fw train kern input bs si mbs hx0 out hid inv h
    obtain ⟨hinv, -, -⟩ :=
      GRUImpl.gru_forward_helper_ok o fw train kern input bs si mbs hx0 out hid inv h
    subst hinv
    exact ⟨mkInvocation_kernel .., mkInvocation_packed ..⟩

/-- C3: `check_input` raises an error if and only if the input's dimension
differs from the expected dimension (2 when `batch_sizes` is defined, 3 when
undefined) or `input.size(-1)` differs from the configured `input_size`; when
both match it returns normally (it is a pure check: no module state is read or
written besides `options.input_size()`). -/
theorem check_input_ok_iff (o : RNNOptionsBase) (input : TensorVal)
    (batch_sizes : Tensor) :
    RNNImplBase.check_input o input batch_sizes = .ok () ↔
      (input.dim = (if batch_sizes.defined then 2 else 3) ∧
       input.size (-1) = o.input_size) := by
  have key : ∀ (expected : Int) (a b : String),
      ((if input.dim = expected then
          (if o.input_size = input.size (-1) then (Except.ok () : Except String Unit)
           else .error a)
        else .error b) = .ok () ↔
        (input.dim = expected ∧ input.size (-1) = o.input_size)) := by
    intro expected a b
    by_cases hd : input.dim = expected <;>
      by_cases hs : o.input_size = input.size (-1) <;>
      simp [hd, hs, eq_comm]
  cases batch_sizes <;>
    simpa [RNNImplBase.check_input, Tensor.defined] using key _ _ _

/-- C4: `get_expected_hidden_size` returns the triple
`(num_layers * num_directions, mini_batch, hidden_size)` with `mini_batch`
taken from `batch_sizes[0]` when `batch_sizes` is defined and from
`input.size(0)` / `input.size(1)` according to `batch_first` otherwise;
`check_hidden_size` errors exactly when the hidden tensor's sizes differ from
that triple; and both `RNNImplBase::check_forward_args` and
`LSTMImpl::check_forward_args` are the composition of `check_input` with the
hidden-size check (the LSTM overload checking both tuple components). -/
theorem expected_hidden_size_spec (o : RNNOptionsBase) (input hx : TensorVal)
    (batch_sizes : Tensor) (msg : String) (hidden : TensorVal × TensorVal) :
    (RNNImplBase.get_expected_hidden_size o input batch_sizes =
      (o.num_layers * (if o.bidirectional then 2 else 1),
       (match batch_sizes with
        | .val bs => bs.item0
        | .null => if o.batch_first then input.size 0 else input.size 1),
       o.hidden_size)) ∧
    (RNNImplBase.check_hidden_size hx
        (RNNImplBase.get_expected_hidden_size o input batch_sizes) msg = .ok () ↔
      hx.sizes =
        [(RNNImplBase.get_expected_hidden_size o input batch_sizes).1,
         (RNNImplBase.get_expected_hidden_size o input batch_sizes).2.1,
         (RNNImplBase.get_expected_hidden_size o input batch_sizes).2.2]) ∧
    (RNNImplBase.check_forward_args o input hx batch_sizes = .ok () ↔
      (RNNImplBase.check_input o input batch_sizes = .ok () ∧
       RNNImplBase.check_hidden_size hx
         (RNNImplBase.get_expected_hidden_size o input batch_sizes) = .ok ())) ∧
    (LSTMImpl.check_forward_args o input hidden batch_sizes = .ok () ↔
      (RNNImplBase.check_input o input batch_sizes = .ok () ∧
       RNNImplBase.check_hidden_size hidden.1
         (RNNImplBase.get_expected_hidden_size o input batch_sizes)
         "Expected hidden[0] size {1}, got {2}" = .ok () ∧
       RNNImplBase.check_hidden_size hidden.2
         (RNNImplBase.get_expected_hidden_size o input batch_sizes)
         "Expected hidden[1] size {1}, got {2}" = .ok ())) := by
  refine ⟨?_, ?_, ?_, ?_⟩
  · cases batch_sizes <;> rfl
  · unfold RNNImplBase.check_hidden_size
    split_ifs <;> simp_all
  · unfold RNNImplBase.check_forward_args
    cases hc : RNNImplBase.check_input o input batch_sizes with
    | error e => simp [hc]
    | ok u => cases u; simp
  · unfold LSTMImpl.check_forward_args
    cases hc : RNNImplBase.check_input o input batch_sizes with
    | error e => simp [hc]
    | ok u =>
      cases u
      cases hc1 : RNNImplBase.check_hidden_size hidden.1
          (RNNImplBase.get_expected_hidden_size o input batch_sizes)
          "Expected hidden[0] size {1}, got {2}" with
      | error e => simp [hc1]
      | ok u1 => simp [hc1]

/-- C7: `permute_hidden` returns `hx` unchanged when the permutation is
undefined and otherwise index-selects `hx` along dimension 1 by the
permutation (`apply_permutation` with its default `dim = 1`); the LSTM
overload applies the same selection independently to both tuple components
and returns the tuple unchanged when the permutation is undefined. -/
theorem permute_hidden_spec (hx perm : Tensor) (hx2 : TensorVal × TensorVal)
    (p : TensorVal) :
    (perm.defined = false → RNNImplBase.permute_hidden hx perm = hx) ∧
    (perm.defined = true →
      RNNImplBase.permute_hidden hx perm = hx.indexSelect 1 perm) ∧
    (apply_permutation hx perm = hx.indexSelect 1 perm) ∧
    (LSTMImpl.permute_hidden hx2 .null = hx2) ∧
    (LSTMImpl.permute_hidden hx2 (.val p) =
      (hx2.1.indexSelect 1 p, hx2.2.indexSelect 1 p)) := by
  refine ⟨?_, ?_, rfl, rfl, rfl⟩
  · intro h
    simp [RNNImplBase.permute_hidden, h]
  · intro h
    simp [RNNImplBase.permute_hidden, h, apply_permutation]

/-- C9: when no initial hidden state is supplied (`hx` undefined, or an empty
optional for LSTM), each `forward_helper` uses as initial state a zero tensor
of shape `[num_layers * num_directions, max_batch_size, hidden_size]` with the
input's dtype and device — for LSTM both `h0` and `c0` are that same zero
tensor; when an initial state is supplied, the supplied state permuted by
`sorted_indices` is used instead and no zero tensor is constructed. -/
theorem forward_zero_init_spec :
    (∀ (sizes : List Int) (src : TensorVal),
      (mkZeros sizes src).sizes = sizes ∧
      (mkZeros sizes src).dtype = src.dtype ∧
      (mkZeros sizes src).isCuda = src.isCuda ∧
      (mkZeros sizes src).deviceId = src.deviceId) ∧
    (∀ o fw train kern input bs si mbs out hid inv,
      RNNImplBase.forward_helper o fw train kern input bs si mbs .null =
          .ok (out, hid, inv) →
        inv.hx =
          [.val (mkZeros [o.num_layers * o.numDirections, mbs, o.hidden_size] input)]) ∧
    (∀ o fw train kern input bs si mbs hx0 out hid inv, hx0.defined = true →
      RNNImplBase.forward_helper o fw train kern input bs si mbs hx0 =
          .ok (out, hid, inv) →
        inv.hx = [RNNImplBase.permute_hidden hx0 si]) ∧
    (∀ o fw train kern input bs si mbs out hid inv,
      LSTMImpl.forward_helper o fw train kern input bs si mbs none =
          .ok (out, hid, inv) →
        inv.hx =
          [.val (mkZeros [o.num_layers * o.numDirections, mbs, o.hidden_size] input),
           .val (mkZeros [o.num_layers * o.numDirections, mbs, o.hidden_size] input)]) ∧
    (∀ o fw train kern input bs si mbs hxv out hid inv,
      LSTMImpl.forward_helper o fw train kern input bs si mbs (some hxv) =
          .ok (out, hid, inv) →
        inv.hx = [.val (LSTMImpl.permute_hidden hxv si).1,
                  .val (LSTMImpl.permute_hidden hxv si).2]) ∧
    (∀ o fw train kern input bs si mbs out hid inv,
      GRUImpl.forward_helper o fw train kern input bs si mbs .null =
          .ok (out, hid, inv) →
        inv.hx =
          [.val (mkZeros [o.num_layers * o.numDirections, mbs, o.hidden_size] input)]) ∧
    (∀ o fw train kern input bs si mbs hx0 out hid inv, hx0.defined = true →
      GRUImpl.forward_helper o fw train kern input bs si mbs hx0 =
          .ok (out, hid, inv) →
        inv.hx = [RNNImplBase.permute_hidden hx0 si]) := by
  refine ⟨fun sizes src => ⟨rfl, rfl, rfl, rfl⟩, ?_, ?_, ?_, ?_, ?_, ?_⟩
  · intro o fw train kern input bs si mbs out hid inv h
    obtain ⟨impl, -, hinv, -, -⟩ :=
      RNNImplBase.rnn_forward_helper_ok o fw train kern input bs si mbs .null out hid inv h
    subst hinv
    rw [mkInvocation_hx]
    simp [hiddenUsed, Tensor.defined]
  · intro o fw train kern input bs si mbs hx0 out hid inv hdef h
    obtain ⟨impl, -, hinv, -, -⟩ :=
      RNNImplBase.rnn_forward_helper_ok o fw train kern input bs si mbs hx0 out hid inv h
    subst hinv
    rw [mkInvocation_hx]
    simp [hiddenUsed, hdef]
  · intro o fw train kern input bs si mbs out hid inv h
    obtain ⟨hinv, -, -⟩ :=
      LSTMImpl.lstm_forward_helper_ok o fw train kern input bs si mbs none out hid inv h
    subst hinv
    rw [mkInvocation_hx]
    rfl
  · intro o fw train kern input bs si mbs hxv out hid inv h
    obtain ⟨hinv, -, -⟩ :=
      LSTMImpl.lstm_forward_helper_ok o fw train kern input bs si mbs (some hxv) out hid inv h
    subst hinv
    rw [mkInvocation_hx]
    rfl
  · intro o fw train kern input bs si mbs out hid inv h
    obtain ⟨hinv, -, -⟩ :=
      GRUImpl.gru_forward_helper_ok o fw train kern input bs si mbs .null out hid inv h
    subst hinv
    rw [mkInvocation_hx]
    simp [hiddenUsed, Tensor.defined]
  · intro o fw train kern input bs si mbs hx0 out hid inv hdef h
    obtain ⟨hinv, -, -⟩ :=
      GRUImpl.gru_forward_helper_ok o fw train kern input bs si mbs hx0 out hid inv h
    subst hinv
    rw [mkInvocation_hx]
    simp [hiddenUsed, hdef]

/-- C8: the `PackedSequence` overloads of `forward` use `batch_sizes[0]` as
the max batch size (visible in the shape of the zero initial state they build
when none is supplied), permute a user-supplied initial hidden state by the
input's `sorted_indices` before the kernel call, and return a
`PackedSequence` carrying exactly the input's `batch_sizes`,
`sorted_indices` and `unsorted_indices` together with the final hidden state
permuted by `unsorted_indices`. -/
theorem forward_packed_spec :
    (∀ o fw train kern packed_input hx ps hidOut inv,
      RNNImplBase.forwardPacked o fw train kern packed_input hx =
          .ok (ps, hidOut, inv) →
        ps.batch_sizes = packed_input.batch_sizes ∧
        ps.sorted_indices = packed_input.sorted_indices ∧
        ps.unsorted_indices = packed_input.unsorted_indices ∧
        ps.data = (kern inv).1 ∧
        hidOut = RNNImplBase.permute_hidden (.val (kern inv).2)
          packed_input.unsorted_indices ∧
        (hx.defined = true →
          inv.hx = [RNNImplBase.permute_hidden hx packed_input.sorted_indices]) ∧
        (hx = .null →
          inv.hx = [.val (mkZeros
            [o.num_layers * o.numDirections, packed_input.batch_sizes.item0,
             o.hidden_size] packed_input.data)])) ∧
    (∀ o fw train kern packed_input hx_opt ps hidOut inv,
      LSTMImpl.forwardPacked o fw train kern packed_input hx_opt =
          .ok (ps, hidOut, inv) →
        ps.batch_sizes = packed_input.batch_sizes ∧
        ps.sorted_indices = packed_input.sorted_indices ∧
        ps.unsorted_indices = packed_input.unsorted_indices ∧
        ps.data = (kern inv).1 ∧
        hidOut = LSTMImpl.permute_hidden ((kern inv).2.1, (kern inv).2.2)
          packed_input.unsorted_indices ∧
        (∀ hxv, hx_opt = some hxv →
          inv.hx = [.val (LSTMImpl.permute_hidden hxv packed_input.sorted_indices).1,
                    .val (LSTMImpl.permute_hidden hxv packed_input.sorted_indices).2]) ∧
        (hx_opt = none →
          inv.hx = [.val (mkZeros
              [o.num_layers * o.numDirections, packed_input.batch_sizes.item0,
               o.hidden_size] packed_input.data),
            .val (mkZeros
              [o.num_layers * o.numDirections, packed_input.batch_sizes.item0,
               o.hidden_size] packed_input.data)])) ∧
    (∀ o fw train kern packed_input hx ps hidOut inv,
      GRUImpl.forwardPacked o fw train kern packed_input hx =
          .ok (ps, hidOut, inv) →
        ps.batch_sizes = packed_input.batch_sizes ∧
        ps.sorted_indices = packed_input.sorted_indices ∧
        ps.unsorted_indices = packed_input.unsorted_indices ∧
        ps.data = (kern inv).1 ∧
        hidOut = RNNImplBase.permute_hidden (.val (kern inv).2)
          packed_input.unsorted_indices ∧
        (hx.defined = true →
          inv.hx = [RNNImplBase.permute_hidden hx packed_input.sorted_indices]) ∧
        (hx = .null →
          inv.hx = [.val (mkZeros
            [o.num_layers * o.numDirections, packed_input.batch_sizes.item0,
             o.hidden_size] packed_input.data)])) := by
  refine ⟨?_, ?_, ?_⟩
  · intro o fw train kern packed_input hx ps hidOut inv h
    simp only [RNNImplBase.forwardPacked] at h
    split at h
    · simp at h
    · rename_i output hidden inv' heq
      simp only [Except.ok.injEq, Prod.mk.injEq] at h
      obtain ⟨hps, hhid, hinvv⟩ := h
      subst hps
      subst hhid
      subst hinvv
      obtain ⟨impl, -, hinv, hout, hhid⟩ :=
        RNNImplBase.rnn_forward_helper_ok o fw train kern packed_input.data
          (.val packed_input.batch_sizes) packed_input.sorted_indices
          packed_input.batch_sizes.item0 hx output hidden inv' heq
      refine ⟨rfl, rfl, rfl, hout, by rw [hhid], ?_, ?_⟩
      · intro hdef
        rw [hinv, mkInvocation_hx]
        simp [hiddenUsed, hdef]
      · intro hundef
        subst hundef
        rw [hinv, mkInvocation_hx]
        simp [hiddenUsed, Tensor.defined]
  · intro o fw train kern packed_input hx_opt ps hidOut inv h
    simp only [LSTMImpl.forwardPacked] at h
    split at h
    · simp at h
    · rename_i output hidden inv' heq
      simp only [Except.ok.injEq, Prod.mk.injEq] at h
      obtain ⟨hps, hhid, hinvv⟩ := h
      subst hps
      subst hhid
      subst hinvv
      obtain ⟨hinv, hout, hhid⟩ :=
        LSTMImpl.lstm_forward_helper_ok o fw train kern packed_input.data
          (.val packed_input.batch_sizes) packed_input.sorted_indices
          packed_input.batch_sizes.item0 hx_opt output hidden inv' heq
      refine ⟨rfl, rfl, rfl, hout, by rw [hhid], ?_, ?_⟩
      · intro hxv hsome
        subst hsome
        rw [hinv, mkInvocation_hx]
        rfl
      · intro hnone
        subst hnone
        rw [hinv, mkInvocation_hx]
        rfl
  · intro o fw train kern packed_input hx ps hidOut inv h
    simp only [GRUImpl.forwardPacked] at h
    split at h
    · simp at h
    · rename_i output hidden inv' heq
      simp only [Except.ok.injEq, Prod.mk.injEq] at h
      obtain ⟨hps, hhid, hinvv⟩ := h
      subst hps
      subst hhid
      subst hinvv
      obtain ⟨hinv, hout, hhid⟩ :=
        GRUImpl.gru_forward_helper_ok o fw train kern packed_input.data
          (.val packed_input.batch_sizes) packed_input.sorted_indices
          packed_input.batch_sizes.item0 hx output hidden inv' heq
      refine ⟨rfl, rfl, rfl, hout, by rw [hhid], ?_, ?_⟩
      · intro hdef
        rw [hinv, mkInvocation_hx]
        simp [hiddenUsed, hdef]
      · intro hundef
        subst hundef
        rw [hinv, mkInvocation_hx]
        simp [hiddenUsed, Tensor.defined]

/-- C10: `reset()` raises an error if and only if the dropout option lies
outside the closed interval `[0, 1]`; inside the interval construction
proceeds, and a positive dropout combined with `num_layers = 1` only sets the
warning (it never errors), so the module is still constructed. -/
theorem reset_dropout_spec (o : RNNOptionsBase) :
    ((∃ st, RNNImplBase.reset o = .ok st) ↔ (0 ≤ o.dropout ∧ o.dropout ≤ 1)) ∧
    (∀ st, RNNImplBase.reset o = .ok st →
      (st.warned = true ↔ (0 < o.dropout ∧ o.num_layers = 1))) ∧
    (0 < o.dropout → o.dropout ≤ 1 → o.num_layers = 1 →
      ∃ st, RNNImplBase.reset o = .ok st ∧ st.warned = true) := by
  by_cases hd : 0 ≤ o.dropout ∧ o.dropout ≤ 1
  · have hok : ∃ st, RNNImplBase.reset o = .ok st := by
      simp only [RNNImplBase.reset, if_pos hd]
      exact ⟨_, rfl⟩
    refine ⟨?_, ?_, ?_⟩
    · simp only [iff_true_intro hd, iff_true]
      exact hok
    · intro st hst
      simp only [RNNImplBase.reset, if_pos hd, Except.ok.injEq] at hst
      rw [← hst]
      simp [Bool.and_eq_true, decide_eq_true_eq]
    · intro h1 h2 h3
      obtain ⟨st, hst⟩ := hok
      refine ⟨st, hst, ?_⟩
      simp only [RNNImplBase.reset, if_pos hd, Except.ok.injEq] at hst
      rw [← hst]
      simp [decide_eq_true_eq, h1, h3]
  · refine ⟨?_, ?_, ?_⟩
    · simp only [RNNImplBase.reset, if_neg hd]
      simp [hd]
    · intro st hst
      simp [RNNImplBase.reset, if_neg hd] at hst
    · intro h1 h2 h3
      exact absurd ⟨le_of_lt h1, h2⟩ hd

/-- C5: `flatten_parameters` performs the `_cudnn_rnn_flatten_weight` call
only when `_flat_weights` and `_flat_weights_names` have the same length,
every flat weight has the same dtype as the first, every flat weight is a
CUDA tensor acceptable to cuDNN, and the flat weights have pairwise-distinct
data pointers; whenever any of these conditions fails it returns early as a
no-op (by construction the model mutates nothing when no call is returned). -/
theorem flatten_parameters_spec (o : RNNOptionsBase) (fw : List Tensor)
    (names : List String) :
    (∀ c, RNNImplBase.flatten_parameters o fw names = some c →
      fw.length = names.length ∧ fw ≠ [] ∧
      (∀ w ∈ fw, w.dtype = (fw.headD .null).dtype ∧ w.isCuda = true ∧
        w.cudnnAcceptable = true) ∧
      (fw.map Tensor.dataPtr).Nodup) ∧
    ((¬ (fw.length = names.length ∧
         (∀ w ∈ fw, w.dtype = (fw.headD .null).dtype ∧ w.isCuda = true ∧
           w.cudnnAcceptable = true) ∧
         (fw.map Tensor.dataPtr).Nodup)) →
      RNNImplBase.flatten_parameters o fw names = none) := by
  constructor
  · intro c h
    by_cases hlen : fw.length = names.length
    · cases fw with
      | nil =>
        simp only [RNNImplBase.flatten_parameters] at h
        rw [if_neg (not_not_intro hlen)] at h
        exact Option.noConfusion h
      | cons first rest =>
        simp only [RNNImplBase.flatten_parameters] at h
        rw [if_neg (not_not_intro hlen)] at h
        by_cases hall : ((first :: rest).all fun w =>
            w.dtype == first.dtype && w.isCuda && w.cudnnAcceptable) = true
        · rw [if_pos hall] at h
          by_cases hded : (((first :: rest).map Tensor.dataPtr).dedup.length =
              (first :: rest).length)
          · refine ⟨hlen, by simp, ?_, ?_⟩
            · intro w hw
              have hb := List.all_eq_true.mp hall w hw
              simp only [Bool.and_eq_true, beq_iff_eq] at hb
              exact ⟨hb.1.1, hb.1.2, hb.2⟩
            · have hmp := (dedup_length_eq_iff ((first :: rest).map Tensor.dataPtr)).mp
              rw [List.length_map] at hmp
              exact hmp hded
          · rw [if_neg hded] at h
            exact Option.noConfusion h
        · rw [if_neg hall] at h
          exact Option.noConfusion h
    · simp only [RNNImplBase.flatten_parameters] at h
      rw [if_pos hlen] at h
      exact Option.noConfusion h
  · intro hneg
    by_cases hlen : fw.length = names.length
    · cases fw with
      | nil =>
        simp only [RNNImplBase.flatten_parameters]
        rw [if_neg (not_not_intro hlen)]
      | cons first rest =>
        by_cases hall : ((first :: rest).all fun w =>
            w.dtype == first.dtype && w.isCuda && w.cudnnAcceptable) = true
        · have hprops : ∀ w ∈ first :: rest,
              w.dtype = ((first :: rest).headD .null).dtype ∧ w.isCuda = true ∧
              w.cudnnAcceptable = true := by
            intro w hw
            have hb := List.all_eq_true.mp hall w hw
            simp only [Bool.and_eq_true, beq_iff_eq] at hb
            exact ⟨hb.1.1, hb.1.2, hb.2⟩
          have hnodup : ¬ ((first :: rest).map Tensor.dataPtr).Nodup := by
            intro hn
            exact hneg ⟨hlen, hprops, hn⟩
          have hded : ¬ ((((first :: rest).map Tensor.dataPtr).dedup.length =
              (first :: rest).length)) := by
            intro hlen2
            apply hnodup
            have hmp := (dedup_length_eq_iff ((first :: rest).map Tensor.dataPtr)).mp
            rw [List.length_map] at hmp
            exact hmp hlen2
          simp only [RNNImplBase.flatten_parameters]
          rw [if_neg (not_not_intro hlen), if_pos hall, if_neg hded]
        · simp only [RNNImplBase.flatten_parameters]
          rw [if_neg (not_not_intro hlen), if_neg hall]
    · simp only [RNNImplBase.flatten_parameters]
      rw [if_pos hlen]

theorem reset_ok_elim (o : RNNOptionsBase) (st : RNNImplBase.ResetResult)
    (hst : RNNImplBase.reset o = .ok st) :
    st.params = (RNNImplBase.layerDirs o).flatMap
      (fun ld => RNNImplBase.registeredEntries o
        (RNNImplBase.gateSize o.mode o.hidden_size) ld.1 ld.2) ∧
    st.all_weights = (RNNImplBase.layerDirs o).map
      (fun ld => RNNImplBase.paramNamesFor o.bias ld.1 ld.2) := by
  simp only [RNNImplBase.reset] at hst
  split at hst
  · injection hst with h
    rw [← h]
    exact ⟨rfl, rfl⟩
  · exact Except.noConfusion hst

theorem mem_layerDirs (o : RNNOptionsBase) (l d : Nat)
    (hl : l < o.num_layers.toNat) (hd : d < o.numDirections.toNat) :
    (l, d) ∈ RNNImplBase.layerDirs o := by
  unfold RNNImplBase.layerDirs
  exact List.mem_flatMap.mpr
    ⟨l, List.mem_range.mpr hl, List.mem_map.mpr ⟨d, List.mem_range.mpr hd, rfl⟩⟩

theorem data_head_of_append (pre : String) (c : Char) (rest : List Char)
    (hpre : pre.data = c :: rest) (x y : String) :
    ((pre ++ x) ++ y).data.head? = some c := by
  rw [String.data_append, String.data_append, hpre]
  rfl

theorem string_ne_of_head (s t : String) (c₁ c₂ : Char)
    (h₁ : s.data.head? = some c₁) (h₂ : t.data.head? = some c₂) (hne : c₁ ≠ c₂) :
    s ≠ t := by
  intro h
  subst h
  rw [h₁] at h₂
  exact hne (Option.some.inj h₂)

theorem bias_ih_ne_weight (x y z w : String) :
    ("bias_ih_l" ++ x ++ y ≠ "weight_ih_l" ++ z ++ w) ∧
    ("bias_ih_l" ++ x ++ y ≠ "weight_hh_l" ++ z ++ w) ∧
    ("bias_hh_l" ++ x ++ y ≠ "weight_ih_l" ++ z ++ w) ∧
    ("bias_hh_l" ++ x ++ y ≠ "weight_hh_l" ++ z ++ w) := by
  have hb1 := data_head_of_append "bias_ih_l" 'b' "ias_ih_l".data (by decide) x y
  have hb2 := data_head_of_append "bias_hh_l" 'b' "ias_hh_l".data (by decide) x y
  have hw1 := data_head_of_append "weight_ih_l" 'w' "eight_ih_l".data (by decide) z w
  have hw2 := data_head_of_append "weight_hh_l" 'w' "eight_hh_l".data (by decide) z w
  exact ⟨string_ne_of_head _ _ _ _ hb1 hw1 (by decide),
         string_ne_of_head _ _ _ _ hb1 hw2 (by decide),
         string_ne_of_head _ _ _ _ hb2 hw1 (by decide),
         string_ne_of_head _ _ _ _ hb2 hw2 (by decide)⟩

/-- C2: for every options value accepted by `reset()`, for each layer
`l < num_layers` and direction `d < num_directions` the module registers a
`weight_ih` tensor of shape `[gate_size, layer_input_size]` (with
`layer_input_size = input_size` for layer 0 and `hidden_size * num_directions`
otherwise), a `weight_hh` tensor of shape `[gate_size, hidden_size]`, and,
exactly when `bias` is set, two bias tensors of shape `[gate_size]`;
`gate_size` is `4 * hidden_size` for LSTM, `3 * hidden_size` for GRU and
`hidden_size` for the two simple-RNN modes (the mode variant admits no other
value). -/
theorem reset_param_shapes (o : RNNOptionsBase) (st : RNNImplBase.ResetResult)
    (hst : RNNImplBase.reset o = .ok st) (l d : Nat)
    (hl : l < o.num_layers.toNat) (hd : d < o.numDirections.toNat) :
    (("weight_ih_l" ++ toString l ++ RNNImplBase.suffixFor d,
      mkEmpty [RNNImplBase.gateSize o.mode o.hidden_size,
        if l = 0 then o.input_size else o.hidden_size * o.numDirections])
      ∈ st.params) ∧
    (("weight_hh_l" ++ toString l ++ RNNImplBase.suffixFor d,
      mkEmpty [RNNImplBase.gateSize o.mode o.hidden_size, o.hidden_size])
      ∈ st.params) ∧
    (o.bias = true →
      ("bias_ih_l" ++ toString l ++ RNNImplBase.suffixFor d,
        mkEmpty [RNNImplBase.gateSize o.mode o.hidden_size]) ∈ st.params ∧
      ("bias_hh_l" ++ toString l ++ RNNImplBase.suffixFor d,
        mkEmpty [RNNImplBase.gateSize o.mode o.hidden_size]) ∈ st.params) ∧
    (o.bias = false → ∀ t : TensorVal,
      ("bias_ih_l" ++ toString l ++ RNNImplBase.suffixFor d, t) ∉ st.params ∧
      ("bias_hh_l" ++ toString l ++ RNNImplBase.suffixFor d, t) ∉ st.params) ∧
    (RNNImplBase.gateSize .LSTM o.hidden_size = 4 * o.hidden_size) ∧
    (RNNImplBase.gateSize .GRU o.hidden_size = 3 * o.hidden_size) ∧
    (RNNImplBase.gateSize .RNN_TANH o.hidden_size = o.hidden_size) ∧
    (RNNImplBase.gateSize .RNN_RELU o.hidden_size = o.hidden_size) := by
  obtain ⟨hp, -⟩ := reset_ok_elim o st hst
  rw [hp]
  have hld := mem_layerDirs o l d hl hd
  refine ⟨?_, ?_, ?_, ?_, rfl, rfl, rfl, rfl⟩
  · refine List.mem_flatMap.mpr ⟨(l, d), hld, ?_⟩
    cases hb : o.bias <;>
      simp [RNNImplBase.registeredEntries, RNNImplBase.paramNamesFor,
        RNNImplBase.layerParamsFor, hb]
  · refine List.mem_flatMap.mpr ⟨(l, d), hld, ?_⟩
    cases hb : o.bias <;>
      simp [RNNImplBase.registeredEntries, RNNImplBase.paramNamesFor,
        RNNImplBase.layerParamsFor, hb]
  · intro hb
    constructor <;>
    · refine List.mem_flatMap.mpr ⟨(l, d), hld, ?_⟩
      simp [RNNImplBase.registeredEntries, RNNImplBase.paramNamesFor,
        RNNImplBase.layerParamsFor, hb]
  · intro hb t
    constructor <;>
    · intro hmem
      obtain ⟨ld', -, hent⟩ := List.mem_flatMap.mp hmem
      simp [RNNImplBase.registeredEntries, RNNImplBase.paramNamesFor,
        RNNImplBase.layerParamsFor, hb, RNNImplBase.suffixFor] at hent
      rcases hent with ⟨hname, -⟩ | ⟨hname, -⟩ <;>
        first
        | exact absurd hname (bias_ih_ne_weight _ _ _ _).1
        | exact absurd hname (bias_ih_ne_weight _ _ _ _).2.1
        | exact absurd hname (bias_ih_ne_weight _ _ _ _).2.2.1
        | exact absurd hname (bias_ih_ne_weight _ _ _ _).2.2.2

/-- C6: the parameters registered by `reset()` for layer `l` and direction
`d` are named by substituting the layer number and the direction suffix
(`"_reverse"` for direction 1, empty for direction 0) into the templates
`weight_ih_l{layer}{suffix}`, `weight_hh_l{layer}{suffix}`,
`bias_ih_l{layer}{suffix}`, `bias_hh_l{layer}{suffix}`; in particular layer 0
forward yields `"weight_ih_l0"` and layer 1 reverse yields
`"weight_ih_l1_reverse"`. -/
theorem reset_param_names (o : RNNOptionsBase) (st : RNNImplBase.ResetResult)
    (hst : RNNImplBase.reset o = .ok st) (l d : Nat)
    (hl : l < o.num_layers.toNat) (hd : d < o.numDirections.toNat) :
    RNNImplBase.paramNamesFor o.bias l d ∈ st.all_weights ∧
    RNNImplBase.suffixFor d = (if d = 1 then "_reverse" else "") ∧
    RNNImplBase.paramNamesFor o.bias l d =
      (["weight_ih_l" ++ toString l ++ RNNImplBase.suffixFor d,
        "weight_hh_l" ++ toString l ++ RNNImplBase.suffixFor d] ++
       if o.bias then
         ["bias_ih_l" ++ toString l ++ RNNImplBase.suffixFor d,
          "bias_hh_l" ++ toString l ++ RNNImplBase.suffixFor d]
       else []) ∧
    ("weight_ih_l" ++ toString 0 ++ RNNImplBase.suffixFor 0 = "weight_ih_l0") ∧
    ("weight_ih_l" ++ toString 1 ++ RNNImplBase.suffixFor 1 =
      "weight_ih_l1_reverse") := by
  obtain ⟨-, hw⟩ := reset_ok_elim o st hst
  rw [hw]
  refine ⟨?_, rfl, rfl, by decide, by decide⟩
  exact List.mem_map.mpr ⟨(l, d), mem_layerDirs o l d hl hd, rfl⟩

/-! ### Concrete fixtures used by the witnesses -/

instance : Inhabited KernelInvocation :=
  ⟨⟨.rnn_tanh, false, default, .null, [], [], false, 0, 0, false, false, none⟩⟩

instance : Inhabited PackedSequence := ⟨⟨default, default, .null, .null⟩⟩

instance : Inhabited RNNImplBase.CudnnFlattenCall :=
  ⟨⟨[], 2, 0, .RNN_TANH, 0, 0, false, false⟩⟩

/-- A small simple-RNN configuration (tanh mode, 2 input features, 3 hidden
units, one unidirectional layer). -/
def optsRNN : RNNOptionsBase :=
  { mode := .RNN_TANH, input_size := 2, hidden_size := 3, num_layers := 1,
    bias := true, batch_first := false, dropout := 0, bidirectional := false }

/-- A bidirectional single-layer LSTM configuration. -/
def optsC2 : RNNOptionsBase :=
  { mode := .LSTM, input_size := 2, hidden_size := 3, num_layers := 1,
    bias := true, batch_first := false, dropout := 0, bidirectional := true }

/-- The simple-RNN configuration with a positive dropout and a single layer
(the warning case). -/
def optsWarn : RNNOptionsBase :=
  { mode := .RNN_TANH, input_size := 2, hidden_size := 3, num_layers := 1,
    bias := true, batch_first := false, dropout := 1, bidirectional := false }

/-- A 3-d input tensor: sequence length 1, batch 1, 2 features. -/
def inputRNN : TensorVal := { sizes := [1, 1, 2] }

/-- A stand-in fused kernel (the claims hold for every kernel). -/
def kernDummy : KernelInvocation → TensorVal × TensorVal := fun _ => (default, default)

/-- The result of a concrete successful `RNNImplBase::forward_helper` call. -/
def resC1 : TensorVal × TensorVal × KernelInvocation :=
  match RNNImplBase.forward_helper optsRNN [] false kernDummy inputRNN
      .null .null 1 .null with
  | .ok r => r
  | .error _ => default

/-- A packed sequence with a single batch of 1 over 2 features. -/
def packedC8 : PackedSequence :=
  { data := { sizes := [1, 2] },
    batch_sizes := { sizes := [1], vals := [1] },
    sorted_indices := .null, unsorted_indices := .null }

/-- The result of a concrete successful packed forward call. -/
def resC8 : PackedSequence × Tensor × KernelInvocation :=
  match RNNImplBase.forwardPacked optsRNN [] false kernDummy packedC8 .null with
  | .ok r => r
  | .error _ => default

/-- Two CUDA-resident flat weights with distinct data pointers. -/
def fwC5 : List Tensor :=
  [.val { sizes := [3, 2], dtype := 1, isCuda := true, cudnnOk := true, dataPtr := 1 },
   .val { sizes := [3, 3], dtype := 1, isCuda := true, cudnnOk := true, dataPtr := 2 }]

/-- The flat-weight names matching `fwC5`. -/
def namesC5 : List String := ["weight_ih_l0", "weight_hh_l0"]

/-- The `_cudnn_rnn_flatten_weight` call produced on `fwC5`. -/
def callC5 : RNNImplBase.CudnnFlattenCall :=
  match RNNImplBase.flatten_parameters optsRNN fwC5 namesC5 with
  | some c => c
  | none => default

/-- The module state built by `reset()` on `optsC2`. -/
def stC2 : RNNImplBase.ResetResult :=
  match RNNImplBase.reset optsC2 with
  | .ok s => s
  | .error _ => default

/-- The module state built by `reset()` on `optsWarn`. -/
def stWarn : RNNImplBase.ResetResult :=
  match RNNImplBase.reset optsWarn with
  | .ok s => s
  | .error _ => default

/-- The concrete helper call behind `resC1` indeed succeeds with it. -/
theorem resC1_spec :
    RNNImplBase.forward_helper optsRNN [] false kernDummy inputRNN
      .null .null 1 .null = .ok (resC1.1, resC1.2.1, resC1.2.2) := rfl

/-- The concrete packed forward call behind `resC8` indeed succeeds with it. -/
theorem resC8_spec :
    RNNImplBase.forwardPacked optsRNN [] false kernDummy packedC8 .null =
      .ok (resC8.1, resC8.2.1, resC8.2.2) := rfl

/-- `flatten_parameters` on `fwC5` indeed performs the call `callC5`. -/
theorem callC5_spec :
    RNNImplBase.flatten_parameters optsRNN fwC5 namesC5 = some callC5 := rfl

/-- `reset` on `optsC2` indeed succeeds with `stC2`. -/
theorem stC2_spec : RNNImplBase.reset optsC2 = .ok stC2 := rfl

/-- `reset` on `optsWarn` indeed succeeds with `stWarn`. -/
theorem stWarn_spec : RNNImplBase.reset optsWarn = .ok stWarn := rfl

/-! ### Witnesses -/

/-- Witness for C1 at a concrete successful tanh-mode helper call. -/
theorem forward_dispatch_spec_witness :
    ((optsRNN.mode = .RNN_TANH ∧ resC1.2.2.kernel = .rnn_tanh) ∨
     (optsRNN.mode = .RNN_RELU ∧ resC1.2.2.kernel = .rnn_relu)) ∧
    resC1.2.2.packed = Tensor.defined .null :=
  forward_dispatch_spec.2.2.2.1 optsRNN [] false kernDummy inputRNN
    .null .null 1 .null resC1.1 resC1.2.1 resC1.2.2 resC1_spec

/-- Witness for C2 at layer 0, reverse direction, of the bidirectional
single-layer LSTM. -/
theorem reset_param_shapes_witness :
    ("weight_ih_l" ++ toString 0 ++ RNNImplBase.suffixFor 1,
      mkEmpty [RNNImplBase.gateSize optsC2.mode optsC2.hidden_size,
        if (0 : Nat) = 0 then optsC2.input_size
        else optsC2.hidden_size * optsC2.numDirections]) ∈ stC2.params :=
  (reset_param_shapes optsC2 stC2 stC2_spec 0 1 (by decide) (by decide)).1

/-- Witness for C5 on two acceptable CUDA weights. -/
theorem flatten_parameters_spec_witness :
    fwC5.length = namesC5.length ∧ fwC5 ≠ [] ∧
    (∀ w ∈ fwC5, w.dtype = (fwC5.headD .null).dtype ∧ w.isCuda = true ∧
      w.cudnnAcceptable = true) ∧
    (fwC5.map Tensor.dataPtr).Nodup :=
  (flatten_parameters_spec optsRNN fwC5 namesC5).1 callC5 callC5_spec

/-- Witness for C6 at layer 0, reverse direction. -/
theorem reset_param_names_witness :
    RNNImplBase.paramNamesFor optsC2.bias 0 1 ∈ stC2.all_weights :=
  (reset_param_names optsC2 stC2 stC2_spec 0 1 (by decide) (by decide)).1

/-- Witness for C7 on a concrete hidden state and permutation. -/
theorem permute_hidden_spec_witness :
    RNNImplBase.permute_hidden (.val { sizes := [1, 1, 3] }) .null =
      .val { sizes := [1, 1, 3] } ∧
    RNNImplBase.permute_hidden (.val { sizes := [1, 1, 3] })
        (.val { sizes := [1], vals := [0] }) =
      (Tensor.val { sizes := [1, 1, 3] }).indexSelect 1
        (.val { sizes := [1], vals := [0] }) :=
  ⟨(permute_hidden_spec (.val { sizes := [1, 1, 3] }) .null
      (default, default) default).1 rfl,
   (permute_hidden_spec (.val { sizes := [1, 1, 3] })
      (.val { sizes := [1], vals := [0] }) (default, default) default).2.1 rfl⟩

/-- Witness for C8 on a concrete packed forward call. -/
theorem forward_packed_spec_witness :
    (resC8.1).batch_sizes = packedC8.batch_sizes ∧
    (resC8.1).sorted_indices = packedC8.sorted_indices ∧
    (resC8.1).unsorted_indices = packedC8.unsorted_indices := by
  obtain ⟨h1, h2, h3, -, -, -, -⟩ :=
    forward_packed_spec.1 optsRNN [] false kernDummy packedC8 .null
      resC8.1 resC8.2.1 resC8.2.2 resC8_spec
  exact ⟨h1, h2, h3⟩

/-- Witness for C9: the concrete helper call with no supplied hidden state
uses the zero initial state. -/
theorem forward_zero_init_spec_witness :
    resC1.2.2.hx =
      [.val (mkZeros [optsRNN.num_layers * optsRNN.numDirections, 1,
        optsRNN.hidden_size] inputRNN)] :=
  forward_zero_init_spec.2.1 optsRNN [] false kernDummy inputRNN
    .null .null 1 resC1.1 resC1.2.1 resC1.2.2 resC1_spec

/-- Witness for C10: positive dropout with a single layer constructs the
module with the warning set. -/
theorem reset_dropout_spec_witness : stWarn.warned = true :=
  ((reset_dropout_spec optsWarn).2.1 stWarn stWarn_spec).mpr ⟨by decide, rfl⟩

end RnnCpp
